import Mathlib

/-!
Shallow embedding of the housekeeping admin frontend
(src/frontend/src/components/CalendarView.vue and
src/frontend/src/components/HousekeepingTaskManager.vue).

Pure computed values and helpers become Lean functions; the stateful
interaction handlers become explicit state-passing functions of type
state to (state, list of issued HTTP requests), with the outcome of each
network suspension point (the fetch result) passed in as an explicit
parameter.  JavaScript Date values are modelled at day granularity as
the number of days since the Unix epoch (the component only ever reads
a Date through toISOString / setDate / date-only comparison).
-/

/-- The base URL constant of both components. -/
def API_URL : String := "http://localhost:3000"

/-- A calendar day: days since 1970-01-01 (UTC), possibly negative. -/
abbrev CalDate := Int

/-- Days-since-epoch to (year, month, day) in the proleptic Gregorian
calendar, as JavaScript Date.prototype.toISOString renders the UTC date.
Standard civil-from-days computation with floor division. -/
def civilFromDays (z0 : CalDate) : Int × Nat × Nat :=
  let z : Int := z0 + 719468
  let era : Int := z / 146097
  let doe : Nat := (z % 146097).toNat
  let yoe : Nat := (doe - doe / 1460 + doe / 36524 - doe / 146096) / 365
  let doy : Nat := doe - (365 * yoe + yoe / 4 - yoe / 100)
  let mp : Nat := (5 * doy + 2) / 153
  let d : Nat := doy - (153 * mp + 2) / 5 + 1
  let m : Nat := if mp < 10 then mp + 3 else mp - 9
  let y : Int := (yoe : Int) + era * 400
  (if m ≤ 2 then y + 1 else y, m, d)

/-- Left-pad a month or day number to two digits. -/
def pad2 (n : Nat) : String :=
  if n < 10 then "0" ++ toString n else toString n

/-- Left-pad a year to four digits (nonnegative years). -/
def pad4 (y : Int) : String :=
  if y < 0 then toString y
  else if y < 10 then "000" ++ toString y
  else if y < 100 then "00" ++ toString y
  else if y < 1000 then "0" ++ toString y
  else toString y

/-- formatDateISO from CalendarView.vue: the date part of toISOString,
i.e. the string YYYY-MM-DD for the UTC calendar date. -/
def formatDateISO (date : CalDate) : String :=
  let c := civilFromDays date
  pad4 c.1 ++ "-" ++ pad2 c.2.1 ++ "-" ++ pad2 c.2.2

/-- The dates computed value of CalendarView.vue: for i from 0 below
daysToShow, push startDate advanced by i days. -/
def dates (startDate : CalDate) (daysToShow : Nat) : List CalDate :=
  (List.range daysToShow).map (fun i => startDate + Int.ofNat i)

/-- isToday from CalendarView.vue: both sides have their time-of-day
stripped by setHours 0 0 0 0, which at day granularity is the identity,
leaving date-only equality. -/
def isToday (today date : CalDate) : Bool :=
  date == today

/-- Decimal value of a list of digit characters. -/
def digitsToNat (ds : List Char) : Nat :=
  ds.foldl (fun acc c => acc * 10 + (c.toNat - 48)) 0

/-- JavaScript parseInt(s) followed by the falsy coalescing operator
against 0, as in the room sort comparator of CalendarView.vue: skip
leading spaces, accept an optional sign, read the longest prefix of
decimal digits; when that prefix is empty the JavaScript result is NaN,
which the coalescing turns into 0.  Hexadecimal 0x prefixes are not
modelled (no room label uses them). -/
def jsParseIntOr0 (s : String) : Int :=
  let cs := s.data.dropWhile (fun c => c == ' ')
  match cs with
  | '-' :: rest =>
      let ds := rest.takeWhile Char.isDigit
      if ds.isEmpty then 0 else -(digitsToNat ds : Int)
  | '+' :: rest =>
      let ds := rest.takeWhile Char.isDigit
      if ds.isEmpty then 0 else (digitsToNat ds : Int)
  | _ =>
      let ds := cs.takeWhile Char.isDigit
      if ds.isEmpty then 0 else (digitsToNat ds : Int)

/-- JavaScript a such-that-or b on strings: the empty string is falsy. -/
def jsOr (a b : String) : String :=
  if a == "" then b else a

/-- The Room record of CalendarView.vue. -/
structure Room where
  id : String
  roomNumber : String
  roomTypeName : Option String := none
  floor : Option Int := none
  status : String := ""
deriving DecidableEq

/-- The HousekeepingTask record shared by both components. -/
structure HousekeepingTask where
  id : String
  roomId : String
  roomNumber : Option String := none
  assignedUserId : String
  assignedUserName : Option String := none
  taskDate : String
  taskType : String
  priority : String
  status : String
  notes : Option String := none
  startedAt : Option String := none
  completedAt : Option String := none
deriving DecidableEq

/-- The transient pendingMove record of CalendarView.vue. -/
structure PendingMove where
  task : HousekeepingTask
  fromDate : String
  toDate : String
deriving DecidableEq

/-- An HTTP request issued through fetch, with the JSON body of a
mutation recorded as its list of (field, value) pairs. -/
inductive HttpRequest where
  | get (url : String)
  | put (url : String) (body : List (String × String))
  | post (url : String) (body : List (String × String))
deriving DecidableEq

/-- Outcome of a GET list fetch: a parsed task list, or a thrown
transport error. -/
inductive FetchTasksResult where
  | ok (tasks : List HousekeepingTask)
  | netFail
deriving DecidableEq

/-- Outcome of a PUT or POST mutation: a 2xx response, a non-2xx
response whose JSON body optionally carries an error field, or a thrown
transport error. -/
inductive MutationResult where
  | ok
  | errResp (errField : Option String)
  | netFail
deriving DecidableEq

/-- The reactive state of CalendarView.vue that the claims touch. -/
structure CalState where
  rooms : List Room
  tasks : List HousekeepingTask
  loading : Bool
  error : String
  startDate : CalDate
  daysToShow : Int
  statusFilter : String
  draggedTask : Option HousekeepingTask
  draggedFromDate : Option String
  pendingMove : Option PendingMove
deriving DecidableEq

/-- Fixed room column width of CalendarView.vue (pixels). -/
def ROOM_COLUMN_WIDTH : Int := 120

/-- Fixed date column width of CalendarView.vue (pixels). -/
def DATE_COLUMN_WIDTH : Int := 100

/-- calculateDaysToShow from CalendarView.vue: floor of the available
width over the date column width, clamped between 3 and 30.  Math.floor
of a real quotient of integers is integer floor division, Int.fdiv. -/
def calculateDaysToShow (width : Int) : Int :=
  let availableWidth := width - ROOM_COLUMN_WIDTH
  let maxDays := availableWidth.fdiv DATE_COLUMN_WIDTH
  max 3 (min 30 maxDays)

/-- Written from the words of the spec, to compare with the source
function: the number of date columns that fit is
floor of (availableWidth - roomColumnWidth) / dateColumnWidth,
clamped to the interval from 3 to 30. -/
def daysToShowSpec (width : Int) : Int :=
  max 3 (min 30 ((width - 120).fdiv 100))

/-- Sort key of the room sort comparator in filteredRooms. -/
def roomSortKey (r : Room) : Int :=
  jsParseIntOr0 r.roomNumber

/-- Ordering on rooms by numeric room-number key. -/
def roomLe (a b : Room) : Prop :=
  roomSortKey a ≤ roomSortKey b

instance : DecidableRel roomLe :=
  fun a b => inferInstanceAs (Decidable (roomSortKey a ≤ roomSortKey b))

instance : IsTotal Room roomLe :=
  ⟨fun a b => le_total (roomSortKey a) (roomSortKey b)⟩

instance : IsTrans Room roomLe :=
  ⟨fun _ _ _ h1 h2 => le_trans h1 h2⟩

/-- filteredRooms from CalendarView.vue: a copy of the room list sorted
ascending by the parseInt-or-0 value of the room number.  The engine
sort is stable and the comparator is a consistent numeric comparison, so
it is modelled by a stable insertion sort over the key ordering. -/
def filteredRooms (rooms : List Room) : List Room :=
  List.insertionSort roomLe rooms

/-- getTasksForRoomAndDate from CalendarView.vue: filter the task list
to the given room and cell date, then further restrict by the status
filter when it is not set to all. -/
def getTasksForRoomAndDate (tasks : List HousekeepingTask) (statusFilter : String)
    (roomId : String) (date : CalDate) : List HousekeepingTask :=
  let dateStr := formatDateISO date
  let roomTasks := tasks.filter (fun t => t.roomId == roomId && t.taskDate == dateStr)
  if statusFilter != "all" then
    roomTasks.filter (fun t => t.status == statusFilter)
  else
    roomTasks

/-- handleDragStart from CalendarView.vue: record the dragged task and
the ISO string of its origin date.  Nothing else changes and no request
is issued. -/
def handleDragStart (s : CalState) (task : HousekeepingTask) (date : CalDate) :
    CalState × List HttpRequest :=
  ({ s with draggedTask := some task, draggedFromDate := some (formatDateISO date) }, [])

/-- handleDrop from CalendarView.vue: with no drag in flight it is a
no-op; a drop on the origin date resets the drag state; a drop on a
different date stages a pendingMove snapshot and resets the drag state.
No request is issued in any branch. -/
def handleDrop (s : CalState) (date : CalDate) : CalState × List HttpRequest :=
  match s.draggedTask, s.draggedFromDate with
  | some task, some fromDate =>
      let newDate := formatDateISO date
      if newDate == fromDate then
        ({ s with draggedTask := none, draggedFromDate := none }, [])
      else
        ({ s with
            pendingMove := some { task := task, fromDate := fromDate, toDate := newDate },
            draggedTask := none, draggedFromDate := none }, [])
  | _, _ => (s, [])

/-- cancelMove from CalendarView.vue: discard the pending move. -/
def cancelMove (s : CalState) : CalState × List HttpRequest :=
  ({ s with pendingMove := none }, [])

/-- fetchTasks from CalendarView.vue: GET the full task list; on success
assign it, on a thrown fetch set the error message. -/
def fetchTasks (s : CalState) (res : FetchTasksResult) : CalState × List HttpRequest :=
  let req := HttpRequest.get (API_URL ++ "/housekeeping-tasks")
  match res with
  | .ok ts => ({ s with tasks := ts }, [req])
  | .netFail => ({ s with error := "Failed to fetch tasks" }, [req])

/-- confirmMove from CalendarView.vue: guard on a pending move, set the
busy flag, PUT a body holding only the taskDate field; on 2xx clear the
pending move and await the full re-fetch, on a non-2xx response or a
thrown fetch surface an error and clear the pending move without
refreshing; the finally block clears the busy flag at the end of every
branch. -/
def confirmMove (s : CalState) (putRes : MutationResult) (refreshRes : FetchTasksResult) :
    CalState × List HttpRequest :=
  match s.pendingMove with
  | none => (s, [])
  | some pm =>
      let s1 := { s with loading := true, error := "" }
      let putReq := HttpRequest.put (API_URL ++ "/housekeeping-tasks/" ++ pm.task.id)
        [("taskDate", pm.toDate)]
      match putRes with
      | .ok =>
          let s2 := { s1 with pendingMove := none }
          let r := fetchTasks s2 refreshRes
          ({ r.1 with loading := false }, putReq :: r.2)
      | .errResp errField =>
          ({ s1 with
              error := jsOr (errField.getD "") "Failed to move task",
              pendingMove := none, loading := false }, [putReq])
      | .netFail =>
          ({ s1 with
              error := "Failed to move task",
              pendingMove := none, loading := false }, [putReq])

/-- The task form record of HousekeepingTaskManager.vue. -/
structure TaskForm where
  roomId : String
  assignedUserId : String
  taskDate : String
  taskType : String
  priority : String
  status : String
  notes : String
deriving DecidableEq

/-- The reactive state of HousekeepingTaskManager.vue that the claims
touch. -/
structure MgrState where
  tasks : List HousekeepingTask
  loading : Bool
  error : String
  editingTask : Option HousekeepingTask
  dateFilter : String
  statusFilter : String
  userFilter : String
  formData : TaskForm
deriving DecidableEq

/-- The blank form produced by resetForm, with taskDate set to the
current date string. -/
def defaultForm (todayStr : String) : TaskForm :=
  { roomId := "", assignedUserId := "", taskDate := todayStr,
    taskType := "cleaning", priority := "medium", status := "pending", notes := "" }

/-- resetForm from HousekeepingTaskManager.vue. -/
def resetForm (s : MgrState) (todayStr : String) : MgrState :=
  { s with formData := defaultForm todayStr, editingTask := none, error := "" }

/-- Join query parameters as the URLSearchParams string (percent
encoding not modelled; no filter value needs it). -/
def queryString (params : List (String × String)) : String :=
  String.intercalate "&" (params.map (fun p => p.1 ++ "=" ++ p.2))

/-- The task list URL built by fetchTasks of HousekeepingTaskManager.vue
from the three filters. -/
def mgrTasksUrl (s : MgrState) : String :=
  let params :=
    (if s.dateFilter != "" then [("date", s.dateFilter)] else [])
    ++ (if s.statusFilter != "all" then [("status", s.statusFilter)] else [])
    ++ (if s.userFilter != "all" then [("userId", s.userFilter)] else [])
  let qs := queryString params
  if qs != "" then API_URL ++ "/housekeeping-tasks?" ++ qs
  else API_URL ++ "/housekeeping-tasks"

/-- fetchTasks from HousekeepingTaskManager.vue. -/
def mgrFetchTasks (s : MgrState) (res : FetchTasksResult) : MgrState × List HttpRequest :=
  let req := HttpRequest.get (mgrTasksUrl s)
  match res with
  | .ok ts => ({ s with tasks := ts }, [req])
  | .netFail => ({ s with error := "Failed to fetch tasks" }, [req])

/-- The JSON body of the addTask POST: the whole form. -/
def formBody (f : TaskForm) : List (String × String) :=
  [("roomId", f.roomId), ("assignedUserId", f.assignedUserId), ("taskDate", f.taskDate),
   ("taskType", f.taskType), ("priority", f.priority), ("status", f.status),
   ("notes", f.notes)]

/-- addTask from HousekeepingTaskManager.vue: when roomId,
assignedUserId or taskDate is empty (falsy), set the validation message
and return before any request; otherwise set the busy flag, POST the
form, on 2xx reset the form and await the re-fetch, on failure surface
an error; the finally block clears the busy flag. -/
def addTask (s : MgrState) (todayStr : String) (postRes : MutationResult)
    (refreshRes : FetchTasksResult) : MgrState × List HttpRequest :=
  if s.formData.roomId == "" || s.formData.assignedUserId == "" ||
      s.formData.taskDate == "" then
    ({ s with error := "Room, assigned user, and task date are required" }, [])
  else
    let s1 := { s with loading := true, error := "" }
    let postReq := HttpRequest.post (API_URL ++ "/housekeeping-tasks") (formBody s.formData)
    match postRes with
    | .ok =>
        let s2 := resetForm s1 todayStr
        let r := mgrFetchTasks s2 refreshRes
        ({ r.1 with loading := false }, postReq :: r.2)
    | .errResp errField =>
        ({ s1 with
            error := jsOr (errField.getD "") "Failed to add task",
            loading := false }, [postReq])
    | .netFail =>
        ({ s1 with error := "Failed to add task", loading := false }, [postReq])

/-! Concrete example data used by witnesses and counterexamples.
Epoch days: 19875 is 2024-06-01, 19877 is 2024-06-03, 19878 is
2024-06-04. -/

/-- Example room with label 10. -/
def exRoom10 : Room := { id := "r-10", roomNumber := "10", status := "available" }

/-- Example room with label 2. -/
def exRoom2 : Room := { id := "r-2", roomNumber := "2", status := "available" }

/-- Example room with label 9A. -/
def exRoom9A : Room := { id := "r-9a", roomNumber := "9A", status := "available" }

/-- Example task scheduled on 2024-06-01. -/
def exTaskA : HousekeepingTask :=
  { id := "1", roomId := "R1", assignedUserId := "U1", taskDate := "2024-06-01",
    taskType := "cleaning", priority := "medium", status := "pending" }

/-- Example task as returned by the store after a move to 2024-06-03. -/
def exTaskB : HousekeepingTask :=
  { id := "1", roomId := "R1", assignedUserId := "U1", taskDate := "2024-06-03",
    taskType := "cleaning", priority := "medium", status := "pending" }

/-- Example staged move of exTaskA from 2024-06-01 to 2024-06-03. -/
def exPm : PendingMove :=
  { task := exTaskA, fromDate := "2024-06-01", toDate := "2024-06-03" }

/-- Example calendar state with no interaction in flight. -/
def exIdleState : CalState :=
  { rooms := [exRoom10], tasks := [exTaskA], loading := false, error := "",
    startDate := 19874, daysToShow := 7, statusFilter := "all",
    draggedTask := none, draggedFromDate := none, pendingMove := none }

/-- Example calendar state with an outstanding pending move. -/
def exStateP : CalState :=
  { exIdleState with pendingMove := some exPm }

/-- Example calendar state with a drag of exTaskA in flight, originated
on 2024-06-01. -/
def exStateD : CalState :=
  { exIdleState with
    draggedTask := some exTaskA,
    draggedFromDate := some (formatDateISO 19875) }

/-- Example manager form with the required roomId left empty. -/
def exForm : TaskForm :=
  { roomId := "", assignedUserId := "U1", taskDate := "2024-06-01",
    taskType := "cleaning", priority := "medium", status := "pending", notes := "" }

/-- Example manager state holding exForm. -/
def exMgrState : MgrState :=
  { tasks := [], loading := false, error := "", editingTask := none,
    dateFilter := "", statusFilter := "all", userFilter := "all", formData := exForm }

/-- A string disjunction against a nonempty default is nonempty. -/
lemma jsOr_ne_empty (a b : String) (hb : b ≠ "") : jsOr a b ≠ "" := by
  unfold jsOr
  split
  · exact hb
  · next h => simpa using h

/-- C1: for every pending move, confirmMove issues exactly one PUT to
the task URL whose body is exactly the taskDate field set to toDate,
followed by exactly one GET re-fetch of the full task list; the final
state has the pending move cleared, the busy flag false, and, when the
re-fetch succeeds, the tasks list replaced by the refreshed list in the
same state in which the busy flag is already clear. -/
theorem confirmMove_success_put_refresh (s : CalState) (pm : PendingMove)
    (refreshRes : FetchTasksResult) (h : s.pendingMove = some pm) :
    (confirmMove s MutationResult.ok refreshRes).2
      = [HttpRequest.put (API_URL ++ "/housekeeping-tasks/" ++ pm.task.id)
          [("taskDate", pm.toDate)],
         HttpRequest.get (API_URL ++ "/housekeeping-tasks")]
    ∧ (confirmMove s MutationResult.ok refreshRes).1.pendingMove = none
    ∧ (confirmMove s MutationResult.ok refreshRes).1.loading = false
    ∧ (∀ ts, refreshRes = FetchTasksResult.ok ts →
        (confirmMove s MutationResult.ok refreshRes).1.tasks = ts) := by
  cases refreshRes <;> simp [confirmMove, fetchTasks, h]

/-- Witness for C1 at a concrete pending move. -/
theorem confirmMove_success_put_refresh_witness :
    exStateP.pendingMove = some exPm
    ∧ (confirmMove exStateP MutationResult.ok (FetchTasksResult.ok [exTaskB])).1.pendingMove = none
    ∧ (confirmMove exStateP MutationResult.ok (FetchTasksResult.ok [exTaskB])).1.tasks = [exTaskB]
    ∧ (confirmMove exStateP MutationResult.ok (FetchTasksResult.ok [exTaskB])).1.loading = false :=
  have h := confirmMove_success_put_refresh exStateP exPm (FetchTasksResult.ok [exTaskB]) rfl
  ⟨rfl, h.2.1, h.2.2.2 [exTaskB] rfl, h.2.2.1⟩

/-- C2: with a drag in flight, a drop on the origin date only resets the
drag state (no pending move is created, nothing else changes, no request
is issued), while a drop on a different date stages exactly one pending
move with fromDate the origin date and toDate the drop date, clearing
the drag-origin record, still issuing no request. -/
theorem handleDrop_stages_move (s : CalState) (task : HousekeepingTask) (fd : String)
    (date : CalDate) (hTask : s.draggedTask = some task)
    (hFrom : s.draggedFromDate = some fd) :
    (formatDateISO date = fd →
      handleDrop s date = ({ s with draggedTask := none, draggedFromDate := none }, []))
    ∧ (formatDateISO date ≠ fd →
      handleDrop s date =
        ({ s with
            pendingMove := some { task := task, fromDate := fd, toDate := formatDateISO date },
            draggedTask := none, draggedFromDate := none }, [])) := by
  constructor
  · intro hEq
    simp [handleDrop, hTask, hFrom, hEq]
  · intro hNe
    simp [handleDrop, hTask, hFrom, hNe]

/-- Witness for C2: a same-date drop at 2024-06-01 and a cross-date drop
at 2024-06-04. -/
theorem handleDrop_stages_move_witness :
    exStateD.draggedTask = some exTaskA
    ∧ handleDrop exStateD 19875
        = ({ exStateD with draggedTask := none, draggedFromDate := none }, [])
    ∧ (handleDrop exStateD 19878).1.pendingMove
        = some { task := exTaskA, fromDate := formatDateISO 19875,
                 toDate := formatDateISO 19878 } := by
  have h1 := handleDrop_stages_move exStateD exTaskA (formatDateISO 19875) 19875 rfl rfl
  have h2 := handleDrop_stages_move exStateD exTaskA (formatDateISO 19875) 19878 rfl rfl
  refine ⟨rfl, h1.1 rfl, ?_⟩
  rw [h2.2 (by decide)]

/-- C3: for every pending move, a failed confirm (non-2xx response, or a
thrown fetch) issues exactly the one PUT and no re-fetch, clears the
pending move, surfaces a nonempty error message, clears the busy flag
and leaves the task list untouched; cancelMove clears the pending move
with no request at all. -/
theorem confirmMove_failure_and_cancel (s : CalState) (pm : PendingMove)
    (m : Option String) (refreshRes : FetchTasksResult) (h : s.pendingMove = some pm) :
    ((confirmMove s (MutationResult.errResp m) refreshRes).2
        = [HttpRequest.put (API_URL ++ "/housekeeping-tasks/" ++ pm.task.id)
            [("taskDate", pm.toDate)]]
      ∧ (confirmMove s (MutationResult.errResp m) refreshRes).1.pendingMove = none
      ∧ (confirmMove s (MutationResult.errResp m) refreshRes).1.tasks = s.tasks
      ∧ (confirmMove s (MutationResult.errResp m) refreshRes).1.loading = false
      ∧ (confirmMove s (MutationResult.errResp m) refreshRes).1.error ≠ "")
    ∧ ((confirmMove s MutationResult.netFail refreshRes).2
        = [HttpRequest.put (API_URL ++ "/housekeeping-tasks/" ++ pm.task.id)
            [("taskDate", pm.toDate)]]
      ∧ (confirmMove s MutationResult.netFail refreshRes).1.pendingMove = none
      ∧ (confirmMove s MutationResult.netFail refreshRes).1.tasks = s.tasks
      ∧ (confirmMove s MutationResult.netFail refreshRes).1.loading = false
      ∧ (confirmMove s MutationResult.netFail refreshRes).1.error ≠ "")
    ∧ cancelMove s = ({ s with pendingMove := none }, []) := by
  refine ⟨?_, ?_, rfl⟩
  · simp [confirmMove, h]
    exact jsOr_ne_empty _ _ (by decide)
  · simp [confirmMove, h]

/-- Witness for C3 at a concrete pending move and a concrete rejected
response. -/
theorem confirmMove_failure_and_cancel_witness :
    exStateP.pendingMove = some exPm
    ∧ (confirmMove exStateP (MutationResult.errResp (some "Conflict"))
        FetchTasksResult.netFail).1.tasks = exStateP.tasks
    ∧ (confirmMove exStateP (MutationResult.errResp (some "Conflict"))
        FetchTasksResult.netFail).1.loading = false
    ∧ cancelMove exStateP = ({ exStateP with pendingMove := none }, []) :=
  have h := confirmMove_failure_and_cancel exStateP exPm (some "Conflict")
    FetchTasksResult.netFail rfl
  ⟨rfl, h.1.2.2.1, h.1.2.2.2.1, h.2.2⟩

/-- C4, counterexample: with a pending move outstanding, handleDragStart
nevertheless begins a new drag (the code has no guard on pendingMove),
and the following cross-date drop replaces the outstanding pending move
with a different one. -/
theorem newDrag_during_pendingMove_cex :
    exStateP.pendingMove = some exPm
    ∧ (handleDragStart exStateP exTaskA 19875).1.draggedTask = some exTaskA
    ∧ (handleDragStart exStateP exTaskA 19875).1.pendingMove = some exPm
    ∧ (handleDrop (handleDragStart exStateP exTaskA 19875).1 19878).1.pendingMove
        = some { task := exTaskA, fromDate := "2024-06-01", toDate := "2024-06-04" }
    ∧ ({ task := exTaskA, fromDate := "2024-06-01", toDate := "2024-06-04" } : PendingMove)
        ≠ exPm := by
  decide

/-- C4, amended: at most one PendingMove exists at a time because the
staging slot is single-valued, but a new drag CAN begin while a pending
move is outstanding (handleDragStart ignores pendingMove), and a
subsequent cross-date drop replaces the outstanding pending move. -/
theorem dragStart_during_pendingMove_amended (s : CalState) (task : HousekeepingTask)
    (d1 d2 : CalDate) :
    ((handleDragStart s task d1).1.draggedTask = some task
      ∧ (handleDragStart s task d1).1.draggedFromDate = some (formatDateISO d1)
      ∧ (handleDragStart s task d1).1.pendingMove = s.pendingMove)
    ∧ (formatDateISO d2 ≠ formatDateISO d1 →
        (handleDrop (handleDragStart s task d1).1 d2).1.pendingMove
          = some { task := task, fromDate := formatDateISO d1, toDate := formatDateISO d2 })
    ∧ (∀ pm1 pm2 : PendingMove, s.pendingMove = some pm1 → s.pendingMove = some pm2 →
        pm1 = pm2) := by
  refine ⟨⟨rfl, rfl, rfl⟩, ?_, ?_⟩
  · intro hNe
    simp [handleDragStart, handleDrop, hNe]
  · intro pm1 pm2 h1 h2
    rw [h1] at h2
    exact Option.some_inj.mp h2

/-- Witness for the amended C4 at concrete dates. -/
theorem dragStart_during_pendingMove_amended_witness :
    (handleDragStart exStateP exTaskA 19875).1.draggedTask = some exTaskA
    ∧ (handleDrop (handleDragStart exStateP exTaskA 19875).1 19878).1.pendingMove
        = some { task := exTaskA, fromDate := formatDateISO 19875,
                 toDate := formatDateISO 19878 } :=
  have h := dragStart_during_pendingMove_amended exStateP exTaskA 19875 19878
  ⟨h.1.1, h.2.1 (by decide)⟩

/-- C5: the layout calculator agrees with the clamped floor formula of
the spec, is monotone in the available width, yields exactly 3 for every
degenerate width at most the room column width, and always lands in the
interval from 3 to 30. -/
theorem calculateDaysToShow_clamped_monotone (w w2 : Int) :
    calculateDaysToShow w = daysToShowSpec w
    ∧ (w ≤ w2 → calculateDaysToShow w ≤ calculateDaysToShow w2)
    ∧ (w ≤ ROOM_COLUMN_WIDTH → calculateDaysToShow w = 3)
    ∧ 3 ≤ calculateDaysToShow w ∧ calculateDaysToShow w ≤ 30 := by
  refine ⟨rfl, ?_, ?_, ?_, ?_⟩
  · intro h
    simp only [calculateDaysToShow]
    have h100 : (0 : Int) ≤ DATE_COLUMN_WIDTH := by decide
    have hm := Int.ediv_le_ediv (by decide : (0 : Int) < 100)
      (sub_le_sub_right h ROOM_COLUMN_WIDTH)
    rw [Int.fdiv_eq_ediv _ h100, Int.fdiv_eq_ediv _ h100]
    exact max_le_max le_rfl (min_le_min le_rfl hm)
  · intro h
    simp only [calculateDaysToShow]
    have h0 : w - ROOM_COLUMN_WIDTH ≤ 0 := sub_nonpos.mpr h
    have hd : (w - ROOM_COLUMN_WIDTH).fdiv DATE_COLUMN_WIDTH ≤ 0 := by
      rw [Int.fdiv_eq_ediv _ (by decide : (0 : Int) ≤ DATE_COLUMN_WIDTH)]
      calc (w - ROOM_COLUMN_WIDTH) / DATE_COLUMN_WIDTH
          ≤ 0 / DATE_COLUMN_WIDTH := Int.ediv_le_ediv (by decide) h0
        _ = 0 := Int.zero_ediv _
    rw [min_eq_right (le_trans hd (by decide))]
    exact max_eq_left (le_trans hd (by decide))
  · simp only [calculateDaysToShow]
    exact le_max_left _ _
  · simp only [calculateDaysToShow]
    exact max_le (by decide) (min_le_left _ _)

/-- Witness for C5 at a degenerate and a wide width. -/
theorem calculateDaysToShow_clamped_monotone_witness :
    calculateDaysToShow 0 = 3 ∧ calculateDaysToShow 0 ≤ calculateDaysToShow 1024 :=
  have h := calculateDaysToShow_clamped_monotone 0 1024
  ⟨h.2.2.1 (by decide), h.2.1 (by decide)⟩

/-- C6: for every day count between 3 and 30 and every start date, the
date range holds exactly that many dates and the entry at index k is the
start date advanced by k days, so the range starts at the start date and
is consecutive ascending. -/
theorem dates_consecutive_range (startDate : CalDate) (d : Nat)
    (_h3 : 3 ≤ d) (_h30 : d ≤ 30) :
    (dates startDate d).length = d
    ∧ ∀ k : Nat, k < d → (dates startDate d)[k]? = some (startDate + (k : Int)) := by
  constructor
  · rw [dates, List.length_map, List.length_range]
  · intro k hk
    rw [dates, List.getElem?_map, List.getElem?_range hk]
    rfl

/-- Witness for C6 with seven days from the epoch. -/
theorem dates_consecutive_range_witness :
    (dates 0 7).length = 7 ∧ (dates 0 7)[3]? = some ((0 : CalDate) + ((3 : Nat) : Int)) :=
  ⟨(dates_consecutive_range 0 7 (by decide) (by decide)).1,
   (dates_consecutive_range 0 7 (by decide) (by decide)).2 3 (by decide)⟩

/-- C7: the room grid sorts every room list ascending by the numeric
value of the room number (a permutation of the input, sorted under the
key ordering); the policy is the numeric prefix read by parseInt with
fully non-numeric labels as 0, so the rooms labelled 10, 2, 9A come out
in the order 2, 9A, 10. -/
theorem filteredRooms_sorted_numeric :
    (∀ rooms : List Room,
      List.Sorted roomLe (filteredRooms rooms) ∧ (filteredRooms rooms).Perm rooms)
    ∧ (filteredRooms [exRoom10, exRoom2, exRoom9A]).map Room.roomNumber = ["2", "9A", "10"]
    ∧ jsParseIntOr0 "9A" = 9 ∧ jsParseIntOr0 "B" = 0 := by
  refine ⟨fun rooms => ⟨List.sorted_insertionSort roomLe rooms,
    List.perm_insertionSort roomLe rooms⟩, ?_, ?_, ?_⟩
  · decide
  · decide
  · decide

/-- C8: for every room and cell date the grid builder returns exactly
the filter of the task list by room, date (and the selected status when
the filter is not set to all) - a subsequence of the task list in store
order. -/
theorem getTasksForRoomAndDate_filter (tasks : List HousekeepingTask)
    (sf roomId : String) (date : CalDate) :
    getTasksForRoomAndDate tasks sf roomId date
      = tasks.filter (fun t => t.roomId == roomId && t.taskDate == formatDateISO date
          && (sf == "all" || t.status == sf))
    ∧ (getTasksForRoomAndDate tasks sf roomId date).Sublist tasks := by
  have heq : getTasksForRoomAndDate tasks sf roomId date
      = tasks.filter (fun t => t.roomId == roomId && t.taskDate == formatDateISO date
          && (sf == "all" || t.status == sf)) := by
    unfold getTasksForRoomAndDate
    by_cases h : sf = "all"
    · subst h
      simp
    · rw [if_pos (by simpa using h), List.filter_filter]
      apply List.filter_congr
      intro t _
      have hf : (sf == "all") = false := by simpa using h
      rw [hf]
      simp [Bool.and_comm, Bool.and_assoc, Bool.and_left_comm]
  refine ⟨heq, ?_⟩
  rw [heq]
  exact List.filter_sublist tasks

/-- C9: when a required form field (roomId, assignedUserId or taskDate)
is empty, addTask sets the validation message and returns before any
request, leaving the busy flag untouched (so still false when it was
false). -/
theorem addTask_missing_required_fields (s : MgrState) (todayStr : String)
    (postRes : MutationResult) (refreshRes : FetchTasksResult)
    (h : s.formData.roomId = "" ∨ s.formData.assignedUserId = ""
        ∨ s.formData.taskDate = "") :
    addTask s todayStr postRes refreshRes
      = ({ s with error := "Room, assigned user, and task date are required" }, [])
    ∧ (addTask s todayStr postRes refreshRes).1.loading = s.loading := by
  have hc : (s.formData.roomId == "" || s.formData.assignedUserId == ""
      || s.formData.taskDate == "") = true := by
    rcases h with h | h | h <;> simp [h]
  constructor
  · unfold addTask
    rw [if_pos hc]
  · unfold addTask
    rw [if_pos hc]

/-- Witness for C9 at a concrete form with empty roomId. -/
theorem addTask_missing_required_fields_witness :
    exMgrState.formData.roomId = ""
    ∧ (addTask exMgrState "2024-06-05" MutationResult.ok (FetchTasksResult.ok [])).2 = []
    ∧ (addTask exMgrState "2024-06-05" MutationResult.ok (FetchTasksResult.ok [])).1.error
        = "Room, assigned user, and task date are required"
    ∧ (addTask exMgrState "2024-06-05" MutationResult.ok (FetchTasksResult.ok [])).1.loading
        = false :=
  have h := addTask_missing_required_fields exMgrState "2024-06-05" MutationResult.ok
    (FetchTasksResult.ok []) (Or.inl rfl)
  ⟨rfl, by rw [h.1], by rw [h.1], h.2.trans rfl⟩

/-- C10: the drag staging operations handleDragStart, handleDrop and
cancelMove leave the tasks and rooms lists exactly as they were and
issue no request; and across confirmMove the tasks list either stays
exactly as it was or is the list assigned by the fetchTasks refresh from
a successful store response. -/
theorem staging_ops_frame (s : CalState) (task : HousekeepingTask) (d1 d2 : CalDate)
    (putRes : MutationResult) (refreshRes : FetchTasksResult) :
    ((handleDragStart s task d1).1.tasks = s.tasks
      ∧ (handleDragStart s task d1).1.rooms = s.rooms
      ∧ (handleDragStart s task d1).2 = [])
    ∧ ((handleDrop s d2).1.tasks = s.tasks
      ∧ (handleDrop s d2).1.rooms = s.rooms
      ∧ (handleDrop s d2).2 = [])
    ∧ ((cancelMove s).1.tasks = s.tasks
      ∧ (cancelMove s).1.rooms = s.rooms
      ∧ (cancelMove s).2 = [])
    ∧ ((confirmMove s putRes refreshRes).1.tasks = s.tasks
      ∨ ∃ ts, refreshRes = FetchTasksResult.ok ts
          ∧ (confirmMove s putRes refreshRes).1.tasks = ts) := by
  refine ⟨⟨rfl, rfl, rfl⟩, ?_, ⟨rfl, rfl, rfl⟩, ?_⟩
  · unfold handleDrop
    cases s.draggedTask <;> cases s.draggedFromDate
    · exact ⟨rfl, rfl, rfl⟩
    · exact ⟨rfl, rfl, rfl⟩
    · exact ⟨rfl, rfl, rfl⟩
    · dsimp only
      split
      · exact ⟨rfl, rfl, rfl⟩
      · exact ⟨rfl, rfl, rfl⟩
  · cases hpm : s.pendingMove <;> cases putRes <;> cases refreshRes <;>
      simp [confirmMove, fetchTasks, hpm]
